import Mathlib

/-!
Verification of the siigo_integration repository against its specification.

Shallow embedding conventions:
* Python floats are modelled as `ℚ` (the numeric values occurring in the
  program are exact decimals, so rational arithmetic is faithful).
* Python `None` and absent dictionary keys are modelled with `Option`.
* Python truthiness of optional strings/numbers is modelled explicitly
  (`none` and `some ""` / `some 0` are falsy).
* Wall-clock reads (`datetime.now()`, `time.time()`) are passed in as
  explicit parameters.
* HTTP transports are passed in as explicit oracles (a function from the
  request to the response, or a list of responses consumed in order), and
  the embedded functions additionally return the log of requests they
  issued, so that "exactly one call" properties are statable.
-/

/-! ## Python-style helpers -/

/-- Truthiness of an optional string, as in Python (`None` and `""` are falsy). -/
def optStrTruthy : Option String → Bool
  | none => false
  | some s => !s.isEmpty

/-- Truthiness of an optional rational, as in Python (`None` and `0` are falsy). -/
def optRatTruthy : Option ℚ → Bool
  | none => false
  | some q => q != 0

/-- Truthiness of an optional natural number, as in Python (`None` and `0` are falsy). -/
def optNatTruthy : Option Nat → Bool
  | none => false
  | some n => n != 0

/-- The left-brace character, kept as a named constant. -/
def lbrace : Char := Char.ofNat 123

/-- The right-brace character, kept as a named constant. -/
def rbrace : Char := Char.ofNat 125

/-- The double-quote character, kept as a named constant. -/
def dquote : Char := Char.ofNat 34

/-- The single-quote character, kept as a named constant. -/
def squote : Char := Char.ofNat 39

/-- The backslash character, kept as a named constant. -/
def bslash : Char := Char.ofNat 92

/-- Single-quote as a one-character string, for building test inputs. -/
def sqStr : String := String.mk [squote]

/-- Python `str.find(ch)`: index of the first occurrence, or `-1`. -/
def pyFind (cs : List Char) (ch : Char) : Int :=
  match cs.findIdx? (· = ch) with
  | some i => (i : Int)
  | none => -1

/-- Python `str.rfind(ch)`: index of the last occurrence, or `-1`. -/
def pyRfind (cs : List Char) (ch : Char) : Int :=
  match cs.reverse.findIdx? (· = ch) with
  | some i => ((cs.length - 1 - i : Nat) : Int)
  | none => -1

/-- Python slice `s[a:b]` for non-negative indices (the only case the code reaches). -/
def pySlice (cs : List Char) (a b : Int) : List Char :=
  (cs.drop a.toNat).take (b.toNat - a.toNat)

/-- Python `str.upper()` on ASCII method names, modelled character-wise. -/
def pyToUpper (s : String) : String := String.mk (s.data.map Char.toUpper)

/-- Helper for `pySplitWs`: structural split on whitespace runs, carrying
the current word in reverse. -/
def splitWsAux : List Char → List Char → List String
  | [], acc => if acc.isEmpty then [] else [String.mk acc.reverse]
  | c :: cs, acc =>
    if c.isWhitespace then
      if acc.isEmpty then splitWsAux cs []
      else String.mk acc.reverse :: splitWsAux cs []
    else splitWsAux cs (c :: acc)

/-- Python `str.split()` (split on whitespace runs, dropping empty parts). -/
def pySplitWs (s : String) : List String := splitWsAux s.data []

/-! ## `utils/text_utils.py` -/

/-- Lower-casing of one character: ASCII lowering extended with the accented
capital letters whose lowercase forms appear in the source's replacement
table (Á É Í Ó Ú Ü Ñ Ç). -/
def pyLowerChar (c : Char) : Char :=
  if c = 'Á' then 'á'
  else if c = 'É' then 'é'
  else if c = 'Í' then 'í'
  else if c = 'Ó' then 'ó'
  else if c = 'Ú' then 'ú'
  else if c = 'Ü' then 'ü'
  else if c = 'Ñ' then 'ñ'
  else if c = 'Ç' then 'ç'
  else c.toLower

/-- The accent-replacement table of `normalize_text`, applied character-wise
(the source applies the same mapping via successive `str.replace` calls). -/
def replaceAccent (c : Char) : Char :=
  if c = 'á' then 'a'
  else if c = 'é' then 'e'
  else if c = 'í' then 'i'
  else if c = 'ó' then 'o'
  else if c = 'ú' then 'u'
  else if c = 'ü' then 'u'
  else if c = 'ñ' then 'n'
  else if c = 'ç' then 'c'
  else c

/-- Embedding of `normalize_text` (src/utils/text_utils.py): lower-case,
strip the listed accents, keep only alphanumeric characters and whitespace,
collapse whitespace runs.  Character classes are modelled over the alphabet
the source's replacement table handles (ASCII plus those accented letters). -/
def normalize_text (text : String) : String :=
  if text.isEmpty then ""
  else
    let lowered := text.data.map pyLowerChar
    let replaced := lowered.map replaceAccent
    let kept := replaced.filter (fun c => c.isAlphanum || c.isWhitespace)
    " ".intercalate (pySplitWs (String.mk kept))

/-- Embedding of `calculate_similarity` (src/utils/text_utils.py):
word-overlap score `|words1 ∩ words2| / max |words1| |words2|` over the
normalized word sets, `0` when either set is empty.  The integer ratio is
built with `mkRat`, which agrees with rational division
(`mkRat_eq_ratio` below) and evaluates by reduction. -/
def calculate_similarity (text1 text2 : String) : ℚ :=
  let words1 := (pySplitWs (normalize_text text1)).dedup
  let words2 := (pySplitWs (normalize_text text2)).dedup
  let common := words1.filter (fun w => w ∈ words2)
  if words1.length = 0 || words2.length = 0 then 0
  else mkRat common.length (max words1.length words2.length)

/-- The ratio form used above agrees with the source's float division. -/
theorem mkRat_eq_ratio (k m : Nat) : (mkRat (k : Int) m : ℚ) = (k : ℚ) / (m : ℚ) := by
  rw [Rat.mkRat_eq_div]
  simp

theorem calculate_similarity_nonneg (a b : String) : 0 ≤ calculate_similarity a b := by
  unfold calculate_similarity
  dsimp only
  split
  · exact le_refl 0
  · rw [mkRat_eq_ratio]
    positivity

/-! ## A strict JSON parser, modelling Python's `json.loads`

The parser accepts exactly the strict JSON grammar (double-quoted strings,
`true`/`false`/`null`, numbers, arrays, objects); in particular it rejects
Python-style single-quoted dict literals, as `json.loads` does.  Recursion
is bounded by an explicit fuel argument that is ample for every input. -/

/-- A JSON value. -/
inductive JValue where
  | null
  | bool (b : Bool)
  | num (v : ℚ)
  | str (s : String)
  | arr (elems : List JValue)
  | obj (fields : List (String × JValue))
deriving Repr, Inhabited

/-- Skip JSON whitespace. -/
def jskipWs : List Char → List Char
  | [] => []
  | c :: cs =>
    if c = ' ' || c = '\t' || c = '\n' || c = '\r' then jskipWs cs else c :: cs

/-- Parse a hexadecimal digit. -/
def hexDigit? (c : Char) : Option Nat :=
  if '0' ≤ c ∧ c ≤ '9' then some (c.toNat - '0'.toNat)
  else if 'a' ≤ c ∧ c ≤ 'f' then some (c.toNat - 'a'.toNat + 10)
  else if 'A' ≤ c ∧ c ≤ 'F' then some (c.toNat - 'A'.toNat + 10)
  else none

/-- Parse the body of a JSON string after the opening quote. -/
def jparseStringBody (fuel : Nat) (cs : List Char) (acc : List Char) :
    Option (String × List Char) :=
  match fuel with
  | 0 => none
  | fuel + 1 =>
    match cs with
    | [] => none
    | c :: rest =>
      if c = dquote then some (String.mk acc.reverse, rest)
      else if c = bslash then
        match rest with
        | [] => none
        | e :: rest2 =>
          if e = dquote then jparseStringBody fuel rest2 (dquote :: acc)
          else if e = bslash then jparseStringBody fuel rest2 (bslash :: acc)
          else if e = '/' then jparseStringBody fuel rest2 ('/' :: acc)
          else if e = 'b' then jparseStringBody fuel rest2 (Char.ofNat 8 :: acc)
          else if e = 'f' then jparseStringBody fuel rest2 (Char.ofNat 12 :: acc)
          else if e = 'n' then jparseStringBody fuel rest2 ('\n' :: acc)
          else if e = 'r' then jparseStringBody fuel rest2 ('\r' :: acc)
          else if e = 't' then jparseStringBody fuel rest2 ('\t' :: acc)
          else if e = 'u' then
            match rest2 with
            | h1 :: h2 :: h3 :: h4 :: rest3 =>
              match hexDigit? h1, hexDigit? h2, hexDigit? h3, hexDigit? h4 with
              | some a, some b, some c3, some d =>
                jparseStringBody fuel rest3
                  (Char.ofNat (((a * 16 + b) * 16 + c3) * 16 + d) :: acc)
              | _, _, _, _ => none
            | _ => none
          else none
      else if c.toNat < 32 then none
      else jparseStringBody fuel rest (c :: acc)

/-- Parse a run of decimal digits, returning value, count and remainder. -/
def jparseDigits (cs : List Char) : Nat × Nat × List Char :=
  match cs with
  | c :: rest =>
    if c.isDigit then
      let (v, n, r) := jparseDigits rest
      -- accumulate left-to-right below via the caller
      (v + (c.toNat - '0'.toNat) * 10 ^ n, n + 1, r)
    else (0, 0, cs)
  | [] => (0, 0, [])

/-- Parse a JSON number (strict grammar: optional minus, integer part without
leading zeros, optional fraction, optional exponent). -/
def jparseNumber (cs : List Char) : Option (ℚ × List Char) :=
  let (neg, cs1) :=
    match cs with
    | c :: rest => if c = '-' then (true, rest) else (false, cs)
    | [] => (false, cs)
  match cs1 with
  | [] => none
  | c :: _ =>
    if !c.isDigit then none
    else if (c == '0') && (match cs1 with | _ :: d :: _ => d.isDigit | _ => false) then none
    else
      let (ip, ic, cs2) := jparseDigits cs1
      if ic = 0 then none
      else
        let (frac, cs3) :=
          match cs2 with
          | p :: rest =>
            if p = '.' then
              let (fv, fc, r) := jparseDigits rest
              if fc = 0 then ((none : Option ℚ), cs2)
              else (some ((fv : ℚ) / (10 : ℚ) ^ fc), r)
            else (none, cs2)
          | [] => (none, cs2)
        if (match cs2 with | p :: _ => p == '.' | [] => false) && frac.isNone then none
        else
          let base : ℚ := (ip : ℚ) + frac.getD 0
          let (expo, cs4) :=
            match cs3 with
            | e :: rest =>
              if e == 'e' || e == 'E' then
                let (esign, rest1) :=
                  match rest with
                  | s :: r2 =>
                    if s = '+' then ((1 : Int), r2)
                    else if s = '-' then ((-1 : Int), r2)
                    else ((1 : Int), rest)
                  | [] => ((1 : Int), rest)
                let (ev, ec, r3) := jparseDigits rest1
                if ec = 0 then ((none : Option Int), cs3)
                else (some (esign * (ev : Int)), r3)
              else (none, cs3)
            | [] => (none, cs3)
          if (match cs3 with | e :: _ => e == 'e' || e == 'E' | [] => false) && expo.isNone
          then none
          else
            let withExp : ℚ :=
              match expo with
              | some k => base * (10 : ℚ) ^ (k : ℤ)
              | none => base
            some (if neg then -withExp else withExp, cs4)

mutual

/-- Parse one JSON value. -/
def jparseValue (fuel : Nat) (cs : List Char) : Option (JValue × List Char) :=
  match fuel with
  | 0 => none
  | fuel + 1 =>
    match jskipWs cs with
    | [] => none
    | c :: rest =>
      if c = dquote then
        match jparseStringBody (rest.length + 1) rest [] with
        | some (s, r) => some (.str s, r)
        | none => none
      else if c = lbrace then
        match jskipWs rest with
        | d :: rest2 =>
          if d = rbrace then some (.obj [], rest2)
          else jparseMembers fuel (d :: rest2) []
        | [] => none
      else if c = '[' then
        match jskipWs rest with
        | d :: rest2 =>
          if d = ']' then some (.arr [], rest2)
          else jparseElems fuel (d :: rest2) []
        | [] => none
      else if c = 't' then
        match rest with
        | 'r' :: 'u' :: 'e' :: r => some (.bool true, r)
        | _ => none
      else if c = 'f' then
        match rest with
        | 'a' :: 'l' :: 's' :: 'e' :: r => some (.bool false, r)
        | _ => none
      else if c = 'n' then
        match rest with
        | 'u' :: 'l' :: 'l' :: r => some (.null, r)
        | _ => none
      else
        match jparseNumber (c :: rest) with
        | some (q, r) => some (.num q, r)
        | none => none

/-- Parse the members of a JSON object (after the opening brace, at least one). -/
def jparseMembers (fuel : Nat) (cs : List Char) (acc : List (String × JValue)) :
    Option (JValue × List Char) :=
  match fuel with
  | 0 => none
  | fuel + 1 =>
    match jskipWs cs with
    | c :: rest =>
      if c = dquote then
        match jparseStringBody (rest.length + 1) rest [] with
        | some (key, r1) =>
          match jskipWs r1 with
          | ':' :: r2 =>
            match jparseValue fuel r2 with
            | some (v, r3) =>
              match jskipWs r3 with
              | ',' :: r4 => jparseMembers fuel r4 ((key, v) :: acc)
              | d :: r4 =>
                if d = rbrace then some (.obj ((key, v) :: acc).reverse, r4)
                else none
              | [] => none
            | none => none
          | _ => none
        | none => none
      else none
    | [] => none

/-- Parse the elements of a JSON array (after the opening bracket, at least one). -/
def jparseElems (fuel : Nat) (cs : List Char) (acc : List JValue) :
    Option (JValue × List Char) :=
  match fuel with
  | 0 => none
  | fuel + 1 =>
    match jparseValue fuel cs with
    | some (v, r1) =>
      match jskipWs r1 with
      | ',' :: r2 => jparseElems fuel r2 (v :: acc)
      | ']' :: r2 => some (.arr (v :: acc).reverse, r2)
      | _ => none
    | none => none

end

/-- Embedding of Python's `json.loads` on a string: parse one value and
require that only whitespace remains. -/
def json_loads (s : String) : Option JValue :=
  match jparseValue (2 * s.length + 2) s.data with
  | some (v, rest) => if jskipWs rest = [] then some v else none
  | none => none

/-- Embedding of `extract_json_from_response` (src/utils/text_utils.py):
take the substring from the first left brace to the last right brace,
parse it as strict JSON, and return an `error` object when the braces are
missing or the parse fails (the exception text is abstracted to a fixed
detail suffix).  There is no second parse attempt in this function. -/
def extract_json_from_response (response_text : String) : JValue :=
  let cs := response_text.data
  let start_idx : Int := pyFind cs lbrace
  let end_idx : Int := pyRfind cs rbrace + 1
  if start_idx ≠ -1 ∧ end_idx ≠ -1 then
    let json_str := String.mk (pySlice cs start_idx end_idx)
    match json_loads json_str with
    | some data => data
    | none => .obj [("error", .str "Error al decodificar la respuesta: JSONDecodeError")]
  else
    .obj [("error", .str "Formato de respuesta no reconocido")]

example : json_loads "\x7b\x22cliente\x22: \x22Juan\x22\x7d"
    = some (.obj [("cliente", .str "Juan")]) := rfl

example : json_loads ("\x7b" ++ sqStr ++ "cliente" ++ sqStr ++ ": " ++ sqStr ++ "Juan" ++ sqStr ++ "\x7d")
    = none := rfl

/-! ## `apis/siigo_api.py` — `SiigoAPIClient`

The client's mutable attributes become an explicit state record; the two
HTTP channels (the `/auth` endpoint and the `/v1` endpoints) become
explicit transports.  Every embedded operation returns, besides its result
and the next state, the list of HTTP requests it issued. -/

/-- The body sent to `POST /auth`. -/
structure AuthRequest where
  username : String
  access_key : String
deriving Repr, DecidableEq

/-- The decoded body of an `/auth` response (`data.get` fields are optional). -/
structure AuthBody where
  access_token : Option String
  expires_in : Option ℚ
deriving Repr, DecidableEq

/-- An `/auth` HTTP response. -/
structure AuthResponse where
  status : Nat
  body : AuthBody
deriving Repr, DecidableEq

/-- The mutable attributes of `SiigoAPIClient`. -/
structure SiigoState where
  username : String
  access_key : String
  partner_id : String
  token : Option String
  token_expiry : Option ℚ
deriving Repr, DecidableEq

/-- The auth body built from the client's configured credentials. -/
def primaryCreds (st : SiigoState) : AuthRequest :=
  { username := st.username, access_key := st.access_key }

/-- The hardcoded fallback credential pair embedded in `get_token`. -/
def backupCredentials : AuthRequest :=
  { username := "siigoapi@pruebas.com"
    access_key := "OWE1OGNkY2QtZGY4ZC00Nzg1LThlZGYtNmExMzUzMmE4Yzc1Omt2YS4yJTUyQEU=" }

/-- Result of one `get_token` call: the returned token, the next client
state and the auth requests issued (in order). -/
structure TokenResult where
  result : Option String
  state : SiigoState
  requests : List AuthRequest
deriving Repr, DecidableEq

/-- Embedding of `SiigoAPIClient.get_token`.  `now` is the value of
`datetime.now().timestamp()` and `authT` maps each auth request body to
the server's response.  The cached token is returned when it is truthy,
its expiry is truthy and unexpired, and no refresh is forced; otherwise
the primary credentials are posted, and on a non-200 reply the hardcoded
fallback pair is posted once before giving up. -/
def get_token (st : SiigoState) (now : ℚ) (authT : AuthRequest → AuthResponse)
    (force_refresh : Bool := false) : TokenResult :=
  if !force_refresh && optStrTruthy st.token && optRatTruthy st.token_expiry
      && decide (now < st.token_expiry.getD 0) then
    { result := st.token, state := st, requests := [] }
  else
    let req1 : AuthRequest := primaryCreds st
    let r1 := authT req1
    if r1.status ≠ 200 then
      let r2 := authT backupCredentials
      if r2.status = 200 then
        { result := r2.body.access_token
          state := { st with
            token := r2.body.access_token
            token_expiry := some (now + r2.body.expires_in.getD 86400) }
          requests := [req1, backupCredentials] }
      else
        { result := none, state := st, requests := [req1, backupCredentials] }
    else
      if r1.status = 200 then
        { result := r1.body.access_token
          state := { st with
            token := r1.body.access_token
            token_expiry := some (now + r1.body.expires_in.getD 86400) }
          requests := [req1] }
      else
        { result := none, state := st, requests := [req1] }

/-- Result of an availability check. -/
structure AvailResult where
  result : Bool
  state : SiigoState
  requests : List AuthRequest
deriving Repr, DecidableEq

/-- Embedding of `SiigoAPIClient.is_available`: false without credentials;
with credentials, true when a (truthy) token exists, otherwise true exactly
when a fresh `get_token` call yields one. -/
def is_available (st : SiigoState) (now : ℚ) (authT : AuthRequest → AuthResponse) :
    AvailResult :=
  if st.username.isEmpty || st.access_key.isEmpty then
    { result := false, state := st, requests := [] }
  else if !optStrTruthy st.token then
    let t := get_token st now authT false
    { result := t.result.isSome, state := t.state, requests := t.requests }
  else
    { result := true, state := st, requests := [] }

/-- One request dispatched by `_make_request` to a `/v1` endpoint. -/
structure RestRequest where
  method : String
  endpoint : String
  data : Option JValue
  params : List (String × String)
  bearer : Option String
deriving Repr, Inhabited

/-- A `/v1` HTTP response with its decoded JSON body. -/
structure RestResponse where
  status : Nat
  body : JValue
deriving Repr, Inhabited

/-- Result of one `_make_request` call: decoded body (or absent), next
state, the `/v1` requests issued, the auth requests issued, and the number
of forced token refreshes performed. -/
structure RequestResult where
  result : Option JValue
  state : SiigoState
  restRequests : List RestRequest
  authRequests : List AuthRequest
  refreshes : Nat
deriving Repr

/-- Embedding of `SiigoAPIClient._make_request`.  `restRs` is the sequence
of responses the `/v1` transport will give to successive requests (an
exhausted list models a transport error, which the source catches and turns
into an absent result).  On a 401 response the token is refreshed once with
`force_refresh=True` and the identical call is retried recursively. -/
def make_request (st : SiigoState) (now : ℚ) (authT : AuthRequest → AuthResponse)
    (restRs : List RestResponse) (method endpoint : String)
    (data : Option JValue := none) (params : List (String × String) := []) :
    RequestResult :=
  let avail := is_available st now authT
  if !avail.result then
    { result := none, state := avail.state, restRequests := [],
      authRequests := avail.requests, refreshes := 0 }
  else
    let st1 := avail.state
    if pyToUpper method ≠ "GET" ∧ pyToUpper method ≠ "POST" ∧ pyToUpper method ≠ "PUT" then
      { result := none, state := st1, restRequests := [],
        authRequests := avail.requests, refreshes := 0 }
    else
      match restRs with
      | [] =>
        -- transport exception: caught, logged and turned into an absent result
        { result := none, state := st1,
          restRequests := [⟨method, endpoint, data, params, st1.token⟩],
          authRequests := avail.requests, refreshes := 0 }
      | r :: rest =>
        let req : RestRequest := ⟨method, endpoint, data, params, st1.token⟩
        if r.status = 200 ∨ r.status = 201 then
          { result := some r.body, state := st1, restRequests := [req],
            authRequests := avail.requests, refreshes := 0 }
        else if r.status = 401 then
          let t := get_token st1 now authT true
          let retry := make_request t.state now authT rest method endpoint data params
          { result := retry.result, state := retry.state,
            restRequests := req :: retry.restRequests,
            authRequests := avail.requests ++ t.requests ++ retry.authRequests,
            refreshes := 1 + retry.refreshes }
        else
          { result := none, state := st1, restRequests := [req],
            authRequests := avail.requests, refreshes := 0 }

/-! ## Claim C2 — `extract_json_from_response` -/

/-- The free-text input of the claim, `blah {'cliente': 'Juan'} blah`,
with braces and single quotes spelled via character codes. -/
def c2Input : String :=
  "blah \x7b" ++ sqStr ++ "cliente" ++ sqStr ++ ": " ++ sqStr ++ "Juan" ++ sqStr ++ "\x7d blah"

/-- C2 counterexample: on the single-quoted pseudo-JSON input the function
returns the error object produced by the failed strict parse — there is no
retry with single quotes replaced by double quotes — so the claimed result
`(cliente ↦ Juan)` is not produced. -/
theorem extract_json_counterexample :
    extract_json_from_response c2Input
      = .obj [("error", .str "Error al decodificar la respuesta: JSONDecodeError")] ∧
    extract_json_from_response c2Input ≠ .obj [("cliente", .str "Juan")] := by
  refine ⟨rfl, ?_⟩
  intro h
  rw [show extract_json_from_response c2Input
      = .obj [("error", .str "Error al decodificar la respuesta: JSONDecodeError")] from rfl] at h
  simp at h

/-- Helper: the `end_idx` computed by `extract_json_from_response` can never
be `-1`, since `rfind` returns at least `-1`. -/
theorem pyRfind_add_one_ne_neg_one (cs : List Char) (ch : Char) :
    pyRfind cs ch + 1 ≠ -1 := by
  unfold pyRfind
  cases h : cs.reverse.findIdx? (· = ch) with
  | none => dsimp only; decide
  | some i => dsimp only; omega

/-- C2 as amended: when the input has no opening brace the function returns
the fixed error object; when a brace substring is found but fails the strict
JSON parse, the function returns the decode-error object directly, with no
second parse attempt after quote replacement (that retry exists only in the
orchestrator-script variant of this function); when the parse succeeds the
parsed object is returned.  The function is total, so it never raises. -/
theorem extract_json_spec (text : String) :
    (pyFind text.data lbrace = -1 →
      extract_json_from_response text
        = .obj [("error", .str "Formato de respuesta no reconocido")]) ∧
    (pyFind text.data lbrace ≠ -1 →
      json_loads (String.mk (pySlice text.data (pyFind text.data lbrace)
          (pyRfind text.data rbrace + 1))) = none →
      extract_json_from_response text
        = .obj [("error", .str "Error al decodificar la respuesta: JSONDecodeError")]) ∧
    (∀ v, pyFind text.data lbrace ≠ -1 →
      json_loads (String.mk (pySlice text.data (pyFind text.data lbrace)
          (pyRfind text.data rbrace + 1))) = some v →
      extract_json_from_response text = v) := by
  refine ⟨?_, ?_, ?_⟩
  · intro hnone
    unfold extract_json_from_response
    rw [if_neg]
    intro ⟨h1, _⟩
    exact h1 hnone
  · intro hfound hparse
    unfold extract_json_from_response
    rw [if_pos ⟨hfound, pyRfind_add_one_ne_neg_one _ _⟩]
    simp only [hparse]
  · intro v hfound hparse
    unfold extract_json_from_response
    rw [if_pos ⟨hfound, pyRfind_add_one_ne_neg_one _ _⟩]
    simp only [hparse]

/-- C2 witness: the amended theorem applied at concrete inputs — a braceless
input yields the unrecognized-format error object, and the claim's
single-quoted input yields the decode-error object. -/
theorem extract_json_spec_witness :
    extract_json_from_response "sin llaves"
      = .obj [("error", .str "Formato de respuesta no reconocido")] ∧
    extract_json_from_response c2Input
      = .obj [("error", .str "Error al decodificar la respuesta: JSONDecodeError")] :=
  ⟨(extract_json_spec "sin llaves").1 rfl,
   (extract_json_spec c2Input).2.1 (by decide) rfl⟩

/-! ## Claim C4 — fallback credentials in `get_token` -/

/-- C4: when the cached-token shortcut does not apply and the primary
credential attempt receives a non-200 response, `get_token` issues exactly
one further authentication attempt, with the hardcoded fallback pair; it
returns the fallback token when that attempt returns 200 with a token and
an absent value when the fallback attempt also fails. -/
theorem get_token_fallback (st : SiigoState) (now : ℚ)
    (authT : AuthRequest → AuthResponse) (force_refresh : Bool)
    (hmiss : (!force_refresh && optStrTruthy st.token && optRatTruthy st.token_expiry
      && decide (now < st.token_expiry.getD 0)) = false)
    (hfail : (authT (primaryCreds st)).status ≠ 200) :
    (get_token st now authT force_refresh).requests
      = [primaryCreds st, backupCredentials] ∧
    ((authT backupCredentials).status ≠ 200 →
      (get_token st now authT force_refresh).result = none) ∧
    ((authT backupCredentials).status = 200 →
      (get_token st now authT force_refresh).result
        = (authT backupCredentials).body.access_token) := by
  unfold get_token
  rw [hmiss]
  simp only [Bool.false_eq_true, if_false, if_pos hfail]
  refine ⟨?_, ?_, ?_⟩
  · split <;> rfl
  · intro h2
    rw [if_neg h2]
  · intro h2
    rw [if_pos h2]

/-- A client state with credentials and no cached token, for witnesses. -/
def c4State : SiigoState :=
  { username := "u", access_key := "k", partner_id := "p"
    token := none, token_expiry := none }

/-- A transport that rejects every request except the fallback pair. -/
def c4Transport : AuthRequest → AuthResponse := fun r =>
  if r = backupCredentials then
    { status := 200, body := { access_token := some "tok2", expires_in := some 60 } }
  else
    { status := 401, body := { access_token := none, expires_in := none } }

/-- C4 witness: with that transport the primary attempt fails, exactly the
two requests are issued, and the fallback token is returned. -/
theorem get_token_fallback_witness :
    (get_token c4State 5 c4Transport false).requests
      = [{ username := "u", access_key := "k" }, backupCredentials] ∧
    (get_token c4State 5 c4Transport false).result = some "tok2" := by
  have h := get_token_fallback c4State 5 c4Transport false (by decide) (by decide)
  refine ⟨h.1, ?_⟩
  rw [h.2.2 (by decide)]
  rfl

/-! ## Claim C5 — token caching in `get_token` -/

/-- C5: with a truthy cached token whose expiry lies in the future and no
forced refresh, `get_token` returns the cached token, issues no
authentication request and leaves the state unchanged; in every other case
it issues a fresh authentication request with the configured credentials
and, when that request returns 200, stores the expiry
`now + expires_in` with `expires_in` defaulting to 86400. -/
theorem get_token_caching (st : SiigoState) (now : ℚ)
    (authT : AuthRequest → AuthResponse) :
    (∀ t e, st.token = some t → t ≠ "" → st.token_expiry = some e → now < e → 0 < now →
      get_token st now authT false = { result := some t, state := st, requests := [] }) ∧
    (∀ force_refresh,
      (!force_refresh && optStrTruthy st.token && optRatTruthy st.token_expiry
        && decide (now < st.token_expiry.getD 0)) = false →
      (get_token st now authT force_refresh).requests.head?
        = some (primaryCreds st) ∧
      ((authT (primaryCreds st)).status = 200 →
        (get_token st now authT force_refresh).state.token_expiry
          = some (now + (authT (primaryCreds st)).body.expires_in.getD 86400))) := by
  constructor
  · intro t e htok ht hexp hlt hpos
    have he : e ≠ 0 := by
      intro h0
      rw [h0] at hlt
      exact absurd (hlt.trans hpos) (lt_irrefl now)
    have hie : t.isEmpty = false := by
      by_contra hc
      rw [Bool.not_eq_false] at hc
      exact ht ((String.isEmpty_iff t).mp hc)
    unfold get_token
    rw [if_pos]
    · rw [htok]
    · rw [htok, hexp]
      simp only [optStrTruthy, optRatTruthy, Option.getD_some, Bool.not_false,
        Bool.true_and, hie, Bool.not_false, Bool.true_and, bne_iff_ne, ne_eq]
      simp [he, hlt]
  · intro force_refresh hmiss
    unfold get_token
    rw [hmiss]
    simp only [Bool.false_eq_true, if_false]
    by_cases h1 : (authT (primaryCreds st)).status = 200
    · rw [if_neg (by simp [h1]), if_pos h1]
      exact ⟨rfl, fun _ => rfl⟩
    · rw [if_pos h1]
      constructor
      · split <;> rfl
      · intro h2
        exact absurd h2 h1

/-- A client state holding a validly cached token, for the C5 witness. -/
def c5State : SiigoState :=
  { username := "u", access_key := "k", partner_id := "p"
    token := some "tok", token_expiry := some 100 }

/-- A transport that accepts any credentials with a 60-second token. -/
def c5Transport : AuthRequest → AuthResponse := fun _ =>
  { status := 200, body := { access_token := some "tok2", expires_in := some 60 } }

/-- C5 witness: at time 50 the cached token is returned with no request
issued; a forced refresh issues the primary request and stores the expiry
`50 + 60` taken from the response. -/
theorem get_token_caching_witness :
    get_token c5State 50 c5Transport false
      = { result := some "tok", state := c5State, requests := [] } ∧
    (get_token c5State 50 c5Transport true).requests.head?
      = some { username := "u", access_key := "k" } ∧
    (get_token c5State 50 c5Transport true).state.token_expiry = some (50 + 60) := by
  have h := get_token_caching c5State 50 c5Transport
  refine ⟨h.1 "tok" 100 rfl (by decide) rfl (by norm_num) (by norm_num), ?_, ?_⟩
  · exact (h.2 true (by decide)).1
  · rw [(h.2 true (by decide)).2 rfl]
    rfl

/-! ## Claim C6 — 401-triggered re-authentication in `_make_request` -/

/-- Helper: with nonempty credentials and a truthy cached token,
`is_available` reports true without issuing any request. -/
theorem is_available_token (st : SiigoState) (now : ℚ)
    (authT : AuthRequest → AuthResponse)
    (hu : st.username.isEmpty = false) (hk : st.access_key.isEmpty = false)
    (ht : optStrTruthy st.token = true) :
    is_available st now authT = { result := true, state := st, requests := [] } := by
  unfold is_available
  rw [hu, hk, ht]
  rfl

/-- Helper: a forced `get_token` whose primary request returns 200 installs
the returned token and issues exactly the primary request. -/
theorem get_token_forced_success (st : SiigoState) (now : ℚ)
    (authT : AuthRequest → AuthResponse)
    (hauth : (authT (primaryCreds st)).status = 200) :
    get_token st now authT true
      = { result := (authT (primaryCreds st)).body.access_token
          state := { st with
            token := (authT (primaryCreds st)).body.access_token
            token_expiry := some (now
              + (authT (primaryCreds st)).body.expires_in.getD 86400) }
          requests := [primaryCreds st] } := by
  unfold get_token
  simp only [Bool.not_true, Bool.false_and, Bool.false_eq_true, if_false]
  rw [if_neg (by simp [hauth]), if_pos hauth]

/-- Helper: one `_make_request` step on a 200/201 response returns the
decoded body and issues exactly one request carrying the cached token. -/
theorem make_request_success (st : SiigoState) (now : ℚ)
    (authT : AuthRequest → AuthResponse) (r : RestResponse) (rest : List RestResponse)
    (method endpoint : String) (data : Option JValue) (params : List (String × String))
    (hu : st.username.isEmpty = false) (hk : st.access_key.isEmpty = false)
    (ht : optStrTruthy st.token = true)
    (hm : pyToUpper method = "GET" ∨ pyToUpper method = "POST" ∨ pyToUpper method = "PUT")
    (h2 : r.status = 200 ∨ r.status = 201) :
    make_request st now authT (r :: rest) method endpoint data params
      = { result := some r.body, state := st
          restRequests := [⟨method, endpoint, data, params, st.token⟩]
          authRequests := [], refreshes := 0 } := by
  unfold make_request
  rw [is_available_token st now authT hu hk ht]
  simp only [Bool.not_true, Bool.false_eq_true, if_false]
  rw [if_neg (by rcases hm with h | h | h <;> simp [h])]
  rw [if_pos h2]

/-- Helper: one `_make_request` step on a 401 response refreshes the token
once and recurses on the remaining transport with identical arguments. -/
theorem make_request_401_step (st : SiigoState) (now : ℚ)
    (authT : AuthRequest → AuthResponse) (r : RestResponse) (rest : List RestResponse)
    (method endpoint : String) (data : Option JValue) (params : List (String × String))
    (hu : st.username.isEmpty = false) (hk : st.access_key.isEmpty = false)
    (ht : optStrTruthy st.token = true)
    (hm : pyToUpper method = "GET" ∨ pyToUpper method = "POST" ∨ pyToUpper method = "PUT")
    (h401 : r.status = 401) :
    make_request st now authT (r :: rest) method endpoint data params
      = { result := (make_request (get_token st now authT true).state now authT rest
              method endpoint data params).result
          state := (make_request (get_token st now authT true).state now authT rest
              method endpoint data params).state
          restRequests := ⟨method, endpoint, data, params, st.token⟩
            :: (make_request (get_token st now authT true).state now authT rest
                method endpoint data params).restRequests
          authRequests := (get_token st now authT true).requests
            ++ (make_request (get_token st now authT true).state now authT rest
                method endpoint data params).authRequests
          refreshes := 1 + (make_request (get_token st now authT true).state now authT rest
              method endpoint data params).refreshes } := by
  conv_lhs => unfold make_request
  rw [is_available_token st now authT hu hk ht]
  simp only [Bool.not_true, Bool.false_eq_true, if_false]
  rw [if_neg (by rcases hm with h | h | h <;> simp [h])]
  rw [if_neg (by rw [h401]; decide), if_pos h401]
  simp only [List.nil_append]

/-- C6 as amended: a request whose first response is 401 triggers exactly
one forced token refresh and exactly one retry with the same method,
endpoint, data and params, and when the retry's status is 200 or 201 (the
only statuses the source treats as success — not every 2xx) its decoded
body is returned. -/
theorem make_request_401_retry (st : SiigoState) (now : ℚ)
    (authT : AuthRequest → AuthResponse) (r1 r2 : RestResponse)
    (method endpoint : String) (data : Option JValue) (params : List (String × String))
    (hu : st.username.isEmpty = false) (hk : st.access_key.isEmpty = false)
    (ht : optStrTruthy st.token = true)
    (hm : pyToUpper method = "GET" ∨ pyToUpper method = "POST" ∨ pyToUpper method = "PUT")
    (h401 : r1.status = 401)
    (hauth : (authT (primaryCreds st)).status = 200)
    (htok2 : optStrTruthy (authT (primaryCreds st)).body.access_token = true)
    (h2 : r2.status = 200 ∨ r2.status = 201) :
    (make_request st now authT [r1, r2] method endpoint data params).result = some r2.body ∧
    (make_request st now authT [r1, r2] method endpoint data params).refreshes = 1 ∧
    (make_request st now authT [r1, r2] method endpoint data params).restRequests
      = [⟨method, endpoint, data, params, st.token⟩,
         ⟨method, endpoint, data, params, (authT (primaryCreds st)).body.access_token⟩] := by
  have hstep := make_request_401_step st now authT r1 [r2] method endpoint data params
    hu hk ht hm h401
  have hforce := get_token_forced_success st now authT hauth
  have hsucc := make_request_success
    { username := st.username, access_key := st.access_key, partner_id := st.partner_id
      token := (authT (primaryCreds st)).body.access_token
      token_expiry := some (now + (authT (primaryCreds st)).body.expires_in.getD 86400) }
    now authT r2 [] method endpoint data params hu hk htok2 hm h2
  rw [hstep]
  dsimp only
  rw [hforce]
  dsimp only
  rw [hsucc]
  exact ⟨rfl, rfl, rfl⟩

/-- A client state with a validly cached token, for the C6 theorems. -/
def c6State : SiigoState :=
  { username := "u", access_key := "k", partner_id := "p"
    token := some "tok", token_expiry := some 100 }

/-- A transport that accepts any credentials with token `tok2`. -/
def c6Transport : AuthRequest → AuthResponse := fun _ =>
  { status := 200, body := { access_token := some "tok2", expires_in := some 60 } }

/-- C6 counterexample: a retry that succeeds with HTTP 202 — a 2xx status —
does not have its decoded JSON returned; the call yields an absent result,
because the source only accepts 200 and 201. -/
theorem make_request_2xx_counterexample :
    (200 ≤ 202 ∧ 202 < 300) ∧
    (make_request c6State 5 c6Transport
        [⟨401, JValue.null⟩, ⟨202, JValue.str "ok"⟩] "GET" "customers" none []).result
      = none :=
  ⟨by decide, rfl⟩

/-- C6 witness: a 401 followed by a 200 yields the retried body, one
refresh, and two identical requests bearing the old and new tokens. -/
theorem make_request_401_retry_witness :
    (make_request c6State 5 c6Transport
        [⟨401, JValue.null⟩, ⟨200, JValue.str "ok"⟩] "GET" "customers" none []).result
      = some (JValue.str "ok") ∧
    (make_request c6State 5 c6Transport
        [⟨401, JValue.null⟩, ⟨200, JValue.str "ok"⟩] "GET" "customers" none []).refreshes
      = 1 ∧
    (make_request c6State 5 c6Transport
        [⟨401, JValue.null⟩, ⟨200, JValue.str "ok"⟩] "GET" "customers" none []).restRequests
      = [⟨"GET", "customers", none, [], some "tok"⟩,
         ⟨"GET", "customers", none, [], some "tok2"⟩] := by
  have h := make_request_401_retry c6State 5 c6Transport ⟨401, JValue.null⟩
    ⟨200, JValue.str "ok"⟩ "GET" "customers" none [] rfl rfl rfl (Or.inl (by decide))
    rfl rfl rfl (Or.inl rfl)
  refine ⟨h.1, h.2.1, ?_⟩
  rw [h.2.2]
  rfl

/-! ## `services/client_service.py` — `find_client_by_name` (claim C7) -/

/-- A row of the "Clientes" sheet, with the fields the lookup reads. -/
structure ClientRow where
  nombre_cliente : String
  identificacion : String
deriving Repr, DecidableEq

/-- The similarity the loop computes for one catalog row: the search name is
normalized first and `calculate_similarity` is applied to that normalized
text and the row's display name. -/
def clientScore (name : String) (c : ClientRow) : ℚ :=
  calculate_similarity (normalize_text name) c.nombre_cliente

/-- The running `(best_match, best_score)` fold of the lookup loop, starting
from `(None, 0)` and updating on a strictly greater score. -/
def bestFold (name : String) (clients : List ClientRow) : Option ClientRow × ℚ :=
  clients.foldl
    (fun acc c => if clientScore name c > acc.2 then (some c, clientScore name c) else acc)
    (none, 0)

/-- Embedding of `ClientService.find_client_by_name`
(src/services/client_service.py): absent on an empty name or catalog;
otherwise the best-scoring row is returned when its score reaches
`threshold`, or the looser band `threshold / 2`, and absent otherwise. -/
def find_client_by_name (clients : List ClientRow) (name : String)
    (threshold : ℚ := 6/10) : Option ClientRow :=
  if name.isEmpty then none
  else if clients.isEmpty then none
  else
    let best := bestFold name clients
    if best.1.isSome ∧ best.2 ≥ threshold then best.1
    else if best.1.isSome ∧ best.2 ≥ threshold / 2 then best.1
    else none

/-- Helper: the fold's score only grows, any strictly positive outcome is
witnessed by a catalog row carrying exactly that score, and the outcome
bounds every row's score from above. -/
theorem bestFold_invariant (name : String) :
    ∀ (clients : List ClientRow) (acc : Option ClientRow × ℚ),
      acc.2 ≤ (clients.foldl
          (fun acc c => if clientScore name c > acc.2 then (some c, clientScore name c) else acc)
          acc).2 ∧
      ((clients.foldl
          (fun acc c => if clientScore name c > acc.2 then (some c, clientScore name c) else acc)
          acc) = acc ∨
        ∃ c ∈ clients, (clients.foldl
          (fun acc c => if clientScore name c > acc.2 then (some c, clientScore name c) else acc)
          acc) = (some c, clientScore name c)) ∧
      (∀ d ∈ clients, clientScore name d ≤ (clients.foldl
          (fun acc c => if clientScore name c > acc.2 then (some c, clientScore name c) else acc)
          acc).2) := by
  intro clients
  induction clients with
  | nil => intro acc; exact ⟨le_refl _, Or.inl rfl, by intro d hd; cases hd⟩
  | cons c cs ih =>
    intro acc
    simp only [List.foldl_cons]
    by_cases hgt : clientScore name c > acc.2
    · rw [if_pos hgt]
      obtain ⟨hle, hwit, hmax⟩ := ih (some c, clientScore name c)
      refine ⟨le_of_lt (lt_of_lt_of_le hgt hle), ?_, ?_⟩
      · rcases hwit with h | ⟨d, hd, hfold⟩
        · exact Or.inr ⟨c, List.mem_cons_self c cs, h⟩
        · exact Or.inr ⟨d, List.mem_cons_of_mem c hd, hfold⟩
      · intro d hd
        rcases List.mem_cons.mp hd with rfl | hmem
        · exact hle
        · exact hmax d hmem
    · rw [if_neg hgt]
      obtain ⟨hle, hwit, hmax⟩ := ih acc
      refine ⟨hle, ?_, ?_⟩
      · rcases hwit with h | ⟨d, hd, hfold⟩
        · exact Or.inl h
        · exact Or.inr ⟨d, List.mem_cons_of_mem c hd, hfold⟩
      · intro d hd
        rcases List.mem_cons.mp hd with rfl | hmem
        · exact le_trans (le_of_not_lt hgt) hle
        · exact hmax d hmem

/-- Helper: when every row scores zero, the loop never updates its
accumulator and the fold stays at `(None, 0)`. -/
theorem bestFold_all_zero (name : String) (clients : List ClientRow)
    (hz : ∀ c ∈ clients, clientScore name c = 0) :
    bestFold name clients = (none, 0) := by
  unfold bestFold
  induction clients with
  | nil => rfl
  | cons c cs ih =>
    simp only [List.foldl_cons]
    rw [if_neg]
    · exact ih (fun d hd => hz d (List.mem_cons_of_mem c hd))
    · rw [hz c (List.mem_cons_self c cs)]
      exact lt_irrefl 0

/-- Helper: an empty search name scores zero against any row. -/
theorem clientScore_empty_name (c : ClientRow) : clientScore "" c = 0 := rfl

/-- C7: `find_client_by_name` returns an absent value on an empty name, an
empty catalog, or when every catalog row scores zero; and whenever the best
word-overlap score reaches `threshold / 2` (for a positive threshold — so a
fortiori when it reaches `threshold`, and with the default 0.6 any best
score of at least 0.3) it returns a best-scoring catalog row, with no
confirmation step inside this method. -/
theorem find_client_by_name_spec (clients : List ClientRow) (name : String) (threshold : ℚ) :
    (name = "" → find_client_by_name clients name threshold = none) ∧
    (clients = [] → find_client_by_name clients name threshold = none) ∧
    ((∀ c ∈ clients, clientScore name c = 0) →
      find_client_by_name clients name threshold = none) ∧
    (0 < threshold → threshold / 2 ≤ (bestFold name clients).2 →
      ∃ c ∈ clients, find_client_by_name clients name threshold = some c ∧
        clientScore name c = (bestFold name clients).2 ∧
        ∀ d ∈ clients, clientScore name d ≤ clientScore name c) := by
  refine ⟨?_, ?_, ?_, ?_⟩
  · intro h
    subst h
    rfl
  · intro h
    subst h
    unfold find_client_by_name
    split
    · rfl
    · rfl
  · intro hz
    unfold find_client_by_name
    split
    · rfl
    · split
      · rfl
      · rw [bestFold_all_zero name clients hz]
        simp
  · intro hth hbest
    have h0 : 0 < (bestFold name clients).2 :=
      lt_of_lt_of_le (by positivity) hbest
    obtain ⟨hle, hwit, hmax⟩ := bestFold_invariant name clients (none, 0)
    rcases hwit with heq | ⟨c, hc, hfold⟩
    · exfalso
      have : (bestFold name clients).2 = 0 := by
        rw [show bestFold name clients = ((none : Option ClientRow), (0 : ℚ)) from heq]
      rw [this] at h0
      exact lt_irrefl 0 h0
    · have hfold' : bestFold name clients = (some c, clientScore name c) := hfold
    -- the name cannot be empty, else the best score would be zero
      have hne : name.isEmpty = false := by
        cases hni : name.isEmpty
        · rfl
        · exfalso
          have hname : name = "" := (String.isEmpty_iff name).mp hni
          subst hname
          rw [hfold', clientScore_empty_name] at h0
          exact lt_irrefl 0 h0
      have hcne : clients.isEmpty = false := by
        cases clients with
        | nil => cases hc
        | cons a as => rfl
      have hmax' : ∀ d ∈ clients, clientScore name d ≤ (bestFold name clients).2 := hmax
      refine ⟨c, hc, ?_, ?_, ?_⟩
      · unfold find_client_by_name
        rw [hne, hcne]
        simp only [Bool.false_eq_true, if_false]
        rw [hfold']
        by_cases hth2 : clientScore name c ≥ threshold
        · rw [if_pos ⟨rfl, hth2⟩]
        · rw [hfold'] at hbest
          rw [if_neg (fun h => hth2 h.2), if_pos ⟨rfl, hbest⟩]
      · rw [hfold']
      · intro d hd
        have := hmax' d hd
        rw [hfold'] at this
        exact this

/-- The catalog used by the C7 witness. -/
def c7Catalog : List ClientRow :=
  [{ nombre_cliente := "Comercializadora ABC S.A.S.", identificacion := "900123456" },
   { nombre_cliente := "Otro Cliente", identificacion := "1" }]

/-- C7 witness: the spec theorem applied to the concrete catalog — empty
name and empty catalog give an absent value, and the search term
"ABC Comercializadora" (scoring well above `0.6 / 2`) returns a
best-scoring row. -/
theorem find_client_by_name_spec_witness :
    find_client_by_name c7Catalog "" (6/10) = none ∧
    find_client_by_name ([] : List ClientRow) "x" (6/10) = none ∧
    (∃ c ∈ c7Catalog, find_client_by_name c7Catalog "ABC Comercializadora" (6/10) = some c ∧
      clientScore "ABC Comercializadora" c
        = (bestFold "ABC Comercializadora" c7Catalog).2 ∧
      ∀ d ∈ c7Catalog, clientScore "ABC Comercializadora" d ≤ clientScore "ABC Comercializadora" c) :=
  ⟨(find_client_by_name_spec c7Catalog "" (6/10)).1 rfl,
   (find_client_by_name_spec ([] : List ClientRow) "x" (6/10)).2.1 rfl,
   (find_client_by_name_spec c7Catalog "ABC Comercializadora" (6/10)).2.2.2
     (by norm_num)
     (by rw [show (bestFold "ABC Comercializadora" c7Catalog).2 = mkRat 2 3 from rfl,
           Rat.mkRat_eq_div]
         norm_num)⟩

/-! ## `database/models.py` — `Product`, `Client`, `Invoice` (claim C8)

The platform invoice payload is defined first because the `Invoice` model
carries the submitted payload (`payload_json`); serialization via
`json.dumps` is modelled as retention of the structured value. -/

/-- One line item of the platform invoice payload assembled by
`generate_siigo_invoice`. -/
structure InvoiceItem where
  code : String
  description : String
  quantity : ℚ
  price : ℚ
  discount : Nat
deriving Repr, DecidableEq

/-- The single payment entry of the payload. -/
structure PaymentEntry where
  id : Nat
  value : ℚ
  due_date : String
deriving Repr, DecidableEq

/-- The platform invoice payload (`invoice_data_siigo` in the source). -/
structure SiigoInvoicePayload where
  document_id : Nat
  document_number : Option Nat
  date : String
  customer_identification : String
  customer_branch_office : Nat
  seller : Option Nat
  observations : String
  items : List InvoiceItem
  payments : List PaymentEntry
  stamp_send : Bool
  mail_send : Bool
deriving Repr, DecidableEq

/-- The `Product` dataclass. -/
structure Product where
  nombre : String
  cantidad : ℚ
  precio : ℚ
  producto_id : Option String := none
  impuesto_id : Option String := none
deriving Repr, DecidableEq

/-- Python `Product.get_total`: `precio * cantidad`. -/
def Product.get_total (p : Product) : ℚ := p.precio * p.cantidad

/-- The `Client` dataclass. -/
structure Client where
  nombre_cliente : String
  identificacion : String
  tipo_persona : String := "Person"
  tipo_identificacion : String := "13"
  direccion : Option String := none
  email : Option String := none
deriving Repr, DecidableEq

/-- The `Invoice` dataclass. -/
structure Invoice where
  factura_id : String
  fecha_emision : String
  nombre_cliente : String
  identificacion : String
  productos_facturados : String
  valor_total : ℚ
  estado : String := "Preparado"
  pdf_url : Option String := none
  siigo_id : Option String := none
  payload_json : Option SiigoInvoicePayload := none
deriving Repr, DecidableEq

/-- A wall-clock reading, as consumed by `datetime.now().strftime`. -/
structure PyDateTime where
  year : Nat
  month : Nat
  day : Nat
  hour : Nat
  minute : Nat
  second : Nat
deriving Repr, DecidableEq

/-- Calendar bounds under which the `strftime` model below is faithful. -/
def PyDateTime.valid (dt : PyDateTime) : Prop :=
  1000 ≤ dt.year ∧ dt.year ≤ 9999 ∧ 1 ≤ dt.month ∧ dt.month ≤ 12 ∧
  1 ≤ dt.day ∧ dt.day ≤ 31 ∧ dt.hour ≤ 23 ∧ dt.minute ≤ 59 ∧ dt.second ≤ 59

instance : DecidablePred PyDateTime.valid := fun dt => by
  unfold PyDateTime.valid
  infer_instance

/-- Zero-padded two-digit decimal rendering (`strftime` `%m`, `%d`, …),
faithful for `n < 100`. -/
def pad2l (n : Nat) : List Char :=
  [Char.ofNat (48 + n / 10 % 10), Char.ofNat (48 + n % 10)]

/-- Zero-padded four-digit decimal rendering (`strftime` `%Y`), faithful
for `n < 10000`. -/
def pad4l (n : Nat) : List Char :=
  [Char.ofNat (48 + n / 1000 % 10), Char.ofNat (48 + n / 100 % 10),
   Char.ofNat (48 + n / 10 % 10), Char.ofNat (48 + n % 10)]

/-- The character list produced by `strftime("%Y%m%d%H%M%S")`. -/
def tsDigits (dt : PyDateTime) : List Char :=
  pad4l dt.year ++ pad2l dt.month ++ pad2l dt.day
    ++ pad2l dt.hour ++ pad2l dt.minute ++ pad2l dt.second

/-- The string produced by `strftime("%Y-%m-%d")`. -/
def formatDateISO (dt : PyDateTime) : String :=
  String.mk (pad4l dt.year) ++ "-" ++ String.mk (pad2l dt.month)
    ++ "-" ++ String.mk (pad2l dt.day)

/-- Two-decimal currency rendering for the product summary lines.  CPython
float formatting is abstracted by rounding the exact rational to
hundredths; no claim depends on these digits. -/
def fmtF2 (q : ℚ) : String :=
  let n : ℤ := round (q * 100)
  let sign := if n < 0 then "-" else ""
  sign ++ toString (n.natAbs / 100) ++ "." ++ String.mk (pad2l (n.natAbs % 100))

/-- Python `str(float)` rendering in f-strings (abstracted likewise). -/
def fmtFloat (q : ℚ) : String :=
  if q.den = 1 then toString q.num ++ ".0" else fmtF2 q

/-- Embedding of `Invoice.create_new` (src/database/models.py): total is
the sum of the products' line totals, the product summary joins one line
per product, and the id is `FACT-` followed by the 14-character second
timestamp. -/
def Invoice.create_new (dt : PyDateTime) (client : Client) (products : List Product) :
    Invoice :=
  { factura_id := "FACT-" ++ String.mk (tsDigits dt)
    fecha_emision := formatDateISO dt
    nombre_cliente := client.nombre_cliente
    identificacion := client.identificacion
    productos_facturados := "\n".intercalate (products.map fun p =>
      p.nombre ++ " x " ++ fmtFloat p.cantidad ++ " = $" ++ fmtF2 p.get_total)
    valor_total := (products.map Product.get_total).sum }

/-- The post-submission status update `invoice.estado = ...`. -/
def Invoice.set_estado (inv : Invoice) (e : String) : Invoice := { inv with estado := e }

/-- The post-submission platform-id update `invoice.siigo_id = ...`. -/
def Invoice.set_siigo_id (inv : Invoice) (sid : String) : Invoice :=
  { inv with siigo_id := some sid }

/-- Helper: the padded characters are decimal digits. -/
theorem digitChar_isDigit : ∀ x : Nat, x < 10 → (Char.ofNat (48 + x)).isDigit = true := by
  decide

/-- Helper: two-digit pads consist of digits. -/
theorem pad2l_all_digits (n : Nat) : (pad2l n).all Char.isDigit = true := by
  simp only [pad2l, List.all_cons, List.all_nil, Bool.and_true, Bool.and_eq_true]
  exact ⟨digitChar_isDigit _ (Nat.mod_lt _ (by norm_num)),
         digitChar_isDigit _ (Nat.mod_lt _ (by norm_num))⟩

/-- Helper: four-digit pads consist of digits. -/
theorem pad4l_all_digits (n : Nat) : (pad4l n).all Char.isDigit = true := by
  simp only [pad4l, List.all_cons, List.all_nil, Bool.and_true, Bool.and_eq_true]
  refine ⟨?_, ?_, ?_, ?_⟩ <;> exact digitChar_isDigit _ (Nat.mod_lt _ (by norm_num))

/-- Helper: the second timestamp has exactly 14 characters. -/
theorem tsDigits_length (dt : PyDateTime) : (tsDigits dt).length = 14 := by
  simp [tsDigits, pad2l, pad4l]

/-- Helper: the second timestamp consists of digits only. -/
theorem tsDigits_all_digits (dt : PyDateTime) : (tsDigits dt).all Char.isDigit = true := by
  simp only [tsDigits, List.all_append, Bool.and_eq_true]
  exact ⟨⟨⟨⟨⟨pad4l_all_digits _, pad2l_all_digits _⟩, pad2l_all_digits _⟩,
    pad2l_all_digits _⟩, pad2l_all_digits _⟩, pad2l_all_digits _⟩

/-- C8: an invoice built by `Invoice.create_new` has `valor_total` equal to
the sum of `precio * cantidad` over the products (exactly, in ℚ), its
`factura_id` is `FACT-` followed by exactly 14 digits, and the status and
platform-id updates leave `valor_total` unchanged. -/
theorem invoice_create_new_spec (dt : PyDateTime) (client : Client)
    (products : List Product) (hdt : dt.valid) :
    (Invoice.create_new dt client products).valor_total
      = (products.map (fun p => p.precio * p.cantidad)).sum ∧
    (∃ ds : List Char, (Invoice.create_new dt client products).factura_id
        = "FACT-" ++ String.mk ds ∧ ds.length = 14 ∧ ds.all Char.isDigit = true) ∧
    (∀ e, ((Invoice.create_new dt client products).set_estado e).valor_total
      = (Invoice.create_new dt client products).valor_total) ∧
    (∀ sid, ((Invoice.create_new dt client products).set_siigo_id sid).valor_total
      = (Invoice.create_new dt client products).valor_total) :=
  ⟨rfl, ⟨tsDigits dt, rfl, tsDigits_length dt, tsDigits_all_digits dt⟩,
   fun _ => rfl, fun _ => rfl⟩

/-- The clock reading used by the C8 witness. -/
def c8Date : PyDateTime := ⟨2025, 1, 2, 3, 4, 5⟩

/-- The client used by the C8 witness. -/
def c8Client : Client := { nombre_cliente := "Juan Perez", identificacion := "123" }

/-- The products used by the C8 witness. -/
def c8Products : List Product :=
  [{ nombre := "Cafe", cantidad := 2, precio := 10 },
   { nombre := "Pan", cantidad := 3, precio := 5 }]

/-- C8 witness: the theorem applied at a concrete date, client and product
list (validity of the date discharged by computation). -/
theorem invoice_create_new_spec_witness :
    (Invoice.create_new c8Date c8Client c8Products).valor_total
      = (c8Products.map (fun p => p.precio * p.cantidad)).sum ∧
    (∃ ds : List Char, (Invoice.create_new c8Date c8Client c8Products).factura_id
        = "FACT-" ++ String.mk ds ∧ ds.length = 14 ∧ ds.all Char.isDigit = true) ∧
    (∀ e, ((Invoice.create_new c8Date c8Client c8Products).set_estado e).valor_total
      = (Invoice.create_new c8Date c8Client c8Products).valor_total) ∧
    (∀ sid, ((Invoice.create_new c8Date c8Client c8Products).set_siigo_id sid).valor_total
      = (Invoice.create_new c8Date c8Client c8Products).valor_total) :=
  invoice_create_new_spec c8Date c8Client c8Products (by decide)

/-! ## `database/db_manager.py` — `DatabaseManager` (claims C9, C10)

The SQLite store becomes an explicit pair of row lists; primary-key
violations (which SQLite raises and `save_invoice` catches, returning
`False` with the transaction discarded) become an explicit freshness check;
`time.time()` for line-item ids becomes a strictly increasing counter. -/

/-- One row of the `facturas_locales` table. -/
structure InvoiceRow where
  id : String
  cliente_id : Option String
  cliente_nombre : String
  cliente_identificacion : String
  fecha : String
  total : ℚ
  productos : String
  estado : String
  pdf_path : String
  siigo_id : Option String
  fecha_actualizacion : String
deriving Repr, DecidableEq

/-- One row of the `items_factura` table. -/
structure ItemRow where
  id : String
  factura_id : String
  producto_id : Option String
  producto_nombre : String
  cantidad : ℚ
  precio : ℚ
  impuesto_id : Option String
  total : ℚ
deriving Repr, DecidableEq

/-- The two tables owned by `DatabaseManager`. -/
structure DB where
  facturas_locales : List InvoiceRow
  items_factura : List ItemRow
deriving Repr, DecidableEq

/-- The invoice row inserted by `save_invoice` (`cliente_id` and `siigo_id`
are absent from the INSERT column list, hence NULL). -/
def savedInvoiceRow (invoice : Invoice) (now_iso : String) : InvoiceRow :=
  { id := invoice.factura_id
    cliente_id := none
    cliente_nombre := invoice.nombre_cliente
    cliente_identificacion := invoice.identificacion
    fecha := invoice.fecha_emision
    total := invoice.valor_total
    productos := invoice.productos_facturados
    estado := invoice.estado
    pdf_path := invoice.pdf_url.getD ""
    siigo_id := none
    fecha_actualizacion := now_iso }

/-- The line-item rows inserted by `save_invoice` (`producto_id` and
`impuesto_id` are absent from the INSERT column list, hence NULL; the id
appends a per-call sub-second timestamp, modelled by `clock + index`). -/
def savedItemRows (invoice : Invoice) (products : List Product) (clock : Nat) :
    List ItemRow :=
  products.enum.map (fun pi =>
    { id := invoice.factura_id ++ "-" ++ pi.2.nombre ++ "-" ++ toString (clock + pi.1)
      factura_id := invoice.factura_id
      producto_id := none
      producto_nombre := pi.2.nombre
      cantidad := pi.2.cantidad
      precio := pi.2.precio
      impuesto_id := none
      total := pi.2.precio * pi.2.cantidad })

/-- Embedding of `DatabaseManager.save_invoice`: insert one invoice row and
one item row per product; any primary-key violation aborts the whole save
(the caught exception yields `False` and the uncommitted transaction is
discarded, leaving the store unchanged). -/
def save_invoice (db : DB) (invoice : Invoice) (products : List Product)
    (now_iso : String) (clock : Nat) : Bool × DB :=
  let row := savedInvoiceRow invoice now_iso
  let newItems := savedItemRows invoice products clock
  if (∃ r ∈ db.facturas_locales, r.id = invoice.factura_id) ∨
      (∃ it ∈ newItems, ∃ r ∈ db.items_factura, r.id = it.id) ∨
      ¬ (newItems.map (fun it => it.id)).Nodup then
    (false, db)
  else
    (true, { facturas_locales := db.facturas_locales ++ [row]
             items_factura := db.items_factura ++ newItems })

/-- Embedding of `DatabaseManager.update_invoice_status`: sets status and
update timestamp on the matching row, and the platform id only when the
`siigo_id` argument is truthy (neither `None` nor empty). -/
def update_invoice_status (db : DB) (invoice_id status : String)
    (siigo_id : Option String) (now_iso : String) : Bool × DB :=
  if optStrTruthy siigo_id then
    (true, { db with facturas_locales := db.facturas_locales.map (fun r =>
      if r.id = invoice_id then
        { r with estado := status, siigo_id := siigo_id, fecha_actualizacion := now_iso }
      else r) })
  else
    (true, { db with facturas_locales := db.facturas_locales.map (fun r =>
      if r.id = invoice_id then
        { r with estado := status, fecha_actualizacion := now_iso }
      else r) })

/-- Embedding of `DatabaseManager.get_invoice_by_id`: the matching invoice
row together with the item rows whose `factura_id` matches. -/
def get_invoice_by_id (db : DB) (invoice_id : String) :
    Option (InvoiceRow × List ItemRow) :=
  match db.facturas_locales.find? (fun r => r.id == invoice_id) with
  | none => none
  | some row => some (row, db.items_factura.filter (fun it => it.factura_id == invoice_id))

/-- Helper: a successful save appends exactly the invoice row and the item
rows to the two tables. -/
theorem save_invoice_success (db : DB) (invoice : Invoice) (products : List Product)
    (now_iso : String) (clock : Nat)
    (hsave : (save_invoice db invoice products now_iso clock).1 = true) :
    (save_invoice db invoice products now_iso clock).2
      = { facturas_locales := db.facturas_locales ++ [savedInvoiceRow invoice now_iso]
          items_factura := db.items_factura ++ savedItemRows invoice products clock } := by
  unfold save_invoice at hsave ⊢
  dsimp only at hsave ⊢
  split at hsave
  · simp at hsave
  · next h => rw [if_neg h]

/-- Helper: the item-row totals are the products' line totals. -/
theorem savedItemRows_map_total (invoice : Invoice) (products : List Product) (clock : Nat) :
    (savedItemRows invoice products clock).map (fun it => it.total)
      = products.map (fun p => p.precio * p.cantidad) := by
  unfold savedItemRows
  rw [List.map_map]
  have h2 : products.enum.map
        ((fun p : Product => p.precio * p.cantidad) ∘ Prod.snd)
      = (products.enum.map Prod.snd).map (fun p => p.precio * p.cantidad) := by
    rw [List.map_map]
  calc products.enum.map _
      = products.enum.map ((fun p : Product => p.precio * p.cantidad) ∘ Prod.snd) := rfl
    _ = (products.enum.map Prod.snd).map (fun p => p.precio * p.cantidad) := h2
    _ = products.map (fun p => p.precio * p.cantidad) := by rw [List.enum_map_snd]

/-- C9: after a successful `save_invoice` of an invoice built from the same
products, with a fresh invoice id, `get_invoice_by_id` returns a record
whose top-level columns match the saved invoice and whose item list has one
entry per product, their stored totals summing to the invoice's total. -/
theorem save_invoice_roundtrip (db : DB) (invoice : Invoice) (dt : PyDateTime)
    (client : Client) (products : List Product) (now_iso : String) (clock : Nat)
    (hinv : invoice = Invoice.create_new dt client products)
    (hfresh1 : ∀ r ∈ db.facturas_locales, r.id ≠ invoice.factura_id)
    (hfresh2 : ∀ it ∈ db.items_factura, it.factura_id ≠ invoice.factura_id)
    (hsave : (save_invoice db invoice products now_iso clock).1 = true) :
    ∃ row items,
      get_invoice_by_id (save_invoice db invoice products now_iso clock).2 invoice.factura_id
        = some (row, items) ∧
      row.id = invoice.factura_id ∧
      row.cliente_nombre = invoice.nombre_cliente ∧
      row.cliente_identificacion = invoice.identificacion ∧
      row.fecha = invoice.fecha_emision ∧
      row.total = invoice.valor_total ∧
      row.productos = invoice.productos_facturados ∧
      row.estado = invoice.estado ∧
      row.pdf_path = invoice.pdf_url.getD "" ∧
      items.length = products.length ∧
      (items.map (fun it => it.total)).sum = invoice.valor_total := by
  have hdb := save_invoice_success db invoice products now_iso clock hsave
  refine ⟨savedInvoiceRow invoice now_iso, savedItemRows invoice products clock,
    ?_, rfl, rfl, rfl, rfl, rfl, rfl, rfl, rfl, ?_, ?_⟩
  · rw [hdb]
    unfold get_invoice_by_id
    have hnone : db.facturas_locales.find? (fun r => r.id == invoice.factura_id) = none := by
      rw [List.find?_eq_none]
      intro r hr
      simp only [beq_iff_eq]
      exact hfresh1 r hr
    have hone : List.find? (fun r => r.id == invoice.factura_id)
          [savedInvoiceRow invoice now_iso] = some (savedInvoiceRow invoice now_iso) := by
      simp [savedInvoiceRow]
    rw [List.find?_append, hnone, Option.none_or, hone]
    have hfilter_old : db.items_factura.filter
        (fun it => it.factura_id == invoice.factura_id) = [] := by
      rw [List.filter_eq_nil_iff]
      intro it hit
      simp only [beq_iff_eq]
      exact hfresh2 it hit
    have hfilter_new : (savedItemRows invoice products clock).filter
        (fun it => it.factura_id == invoice.factura_id)
          = savedItemRows invoice products clock := by
      rw [List.filter_eq_self]
      intro it hit
      simp only [beq_iff_eq]
      unfold savedItemRows at hit
      obtain ⟨pi, _, rfl⟩ := List.mem_map.mp hit
      rfl
    rw [List.filter_append, hfilter_old, hfilter_new, List.nil_append]
  · unfold savedItemRows
    rw [List.length_map, List.enum_length]
  · rw [savedItemRows_map_total, hinv]
    rfl

/-- The date used by the C9 witness. -/
def c9Date : PyDateTime := ⟨2024, 6, 7, 8, 9, 10⟩

/-- The client used by the C9 witness. -/
def c9Client : Client := { nombre_cliente := "Maria", identificacion := "55" }

/-- The products used by the C9 witness (a repeated name, to exercise the
timestamp-suffixed item ids). -/
def c9Products : List Product :=
  [{ nombre := "Te", cantidad := 1, precio := 4 },
   { nombre := "Te", cantidad := 2, precio := 3 }]

/-- The invoice used by the C9 witness. -/
def c9Invoice : Invoice := Invoice.create_new c9Date c9Client c9Products

/-- C9 witness: the round-trip theorem applied to an empty store with a
concrete invoice built from two products sharing a name. -/
theorem save_invoice_roundtrip_witness :
    ∃ row items,
      get_invoice_by_id
          (save_invoice ⟨[], []⟩ c9Invoice c9Products "2024-06-07T08:09:10" 0).2
          c9Invoice.factura_id
        = some (row, items) ∧
      row.id = c9Invoice.factura_id ∧
      row.cliente_nombre = c9Invoice.nombre_cliente ∧
      row.cliente_identificacion = c9Invoice.identificacion ∧
      row.fecha = c9Invoice.fecha_emision ∧
      row.total = c9Invoice.valor_total ∧
      row.productos = c9Invoice.productos_facturados ∧
      row.estado = c9Invoice.estado ∧
      row.pdf_path = c9Invoice.pdf_url.getD "" ∧
      items.length = c9Products.length ∧
      (items.map (fun it => it.total)).sum = c9Invoice.valor_total :=
  save_invoice_roundtrip ⟨[], []⟩ c9Invoice c9Date c9Client c9Products
    "2024-06-07T08:09:10" 0 rfl (by simp) (by simp) (by rfl)

/-! ## Claim C10 — `siigo_id` lifecycle in the local store -/

/-- C10: a successful `save_invoice` stores the invoice row with a NULL
`siigo_id` whatever the in-memory invoice carried; `update_invoice_status`
with a truthy `siigo_id` writes it (together with the status) onto the
matching row; and with an absent (or empty) `siigo_id` it leaves every
row's stored `siigo_id` unchanged. -/
theorem siigo_id_lifecycle (db : DB) (invoice : Invoice) (products : List Product)
    (now_iso : String) (clock : Nat) (invoice_id status : String) :
    ((save_invoice db invoice products now_iso clock).1 = true →
      ∃ row, (save_invoice db invoice products now_iso clock).2.facturas_locales
          = db.facturas_locales ++ [row] ∧ row.id = invoice.factura_id ∧
          row.siigo_id = none) ∧
    (∀ sid : String, sid ≠ "" →
      (update_invoice_status db invoice_id status (some sid) now_iso).2.facturas_locales
        = db.facturas_locales.map (fun r =>
            if r.id = invoice_id then
              { r with
                estado := status, siigo_id := some sid,
                fecha_actualizacion := now_iso }
            else r)) ∧
    (∀ sid : Option String, optStrTruthy sid = false →
      ((update_invoice_status db invoice_id status sid now_iso).2.facturas_locales.map
          (fun r => r.siigo_id))
        = db.facturas_locales.map (fun r => r.siigo_id)) := by
  refine ⟨?_, ?_, ?_⟩
  · intro hsave
    exact ⟨savedInvoiceRow invoice now_iso,
      by rw [save_invoice_success db invoice products now_iso clock hsave], rfl, rfl⟩
  · intro sid hs
    unfold update_invoice_status
    rw [if_pos]
    show optStrTruthy (some sid) = true
    simp only [optStrTruthy, Bool.not_eq_true']
    rw [Bool.eq_false_iff]
    intro hc
    exact hs ((String.isEmpty_iff sid).mp hc)
  · intro sid hs
    unfold update_invoice_status
    simp only [hs, Bool.false_eq_true, if_false]
    rw [List.map_map]
    apply List.map_congr_left
    intro r _
    dsimp only [Function.comp]
    split
    · rfl
    · rfl

/-- One pre-existing stored row for the C10 witness. -/
def c10Row : InvoiceRow :=
  { id := "FACT-1", cliente_id := none, cliente_nombre := "N",
    cliente_identificacion := "9", fecha := "2024-01-01", total := 7,
    productos := "", estado := "Preparado", pdf_path := "", siigo_id := none,
    fecha_actualizacion := "t" }

/-- The store used by the C10 witness. -/
def c10DB : DB := { facturas_locales := [c10Row], items_factura := [] }

/-- An in-memory invoice that already carries a platform id at save time,
for the C10 witness. -/
def c10Invoice : Invoice :=
  { factura_id := "FACT-2", fecha_emision := "2024-01-02", nombre_cliente := "N",
    identificacion := "9", productos_facturados := "", valor_total := 7,
    siigo_id := some "S-99" }

/-- C10 witness: the lifecycle theorem applied to a concrete store — the
saved row of an invoice carrying `siigo_id = "S-99"` is stored with NULL,
an update with `"SIIGO-1"` writes it, and an update without one leaves the
stored ids unchanged. -/
theorem siigo_id_lifecycle_witness :
    (∃ row, (save_invoice c10DB c10Invoice [] "t2" 0).2.facturas_locales
        = c10DB.facturas_locales ++ [row] ∧ row.id = c10Invoice.factura_id ∧
        row.siigo_id = none) ∧
    (update_invoice_status c10DB "FACT-1" "Facturado en Siigo" (some "SIIGO-1") "t3"
        ).2.facturas_locales
      = c10DB.facturas_locales.map (fun r =>
          if r.id = "FACT-1" then
            { r with
              estado := "Facturado en Siigo", siigo_id := some "SIIGO-1",
              fecha_actualizacion := "t3" }
          else r) ∧
    ((update_invoice_status c10DB "FACT-1" "Anulado" none "t4").2.facturas_locales.map
        (fun r => r.siigo_id))
      = c10DB.facturas_locales.map (fun r => r.siigo_id) :=
  ⟨(siigo_id_lifecycle c10DB c10Invoice [] "t2" 0 "FACT-1" "x").1 (by rfl),
   (siigo_id_lifecycle c10DB c10Invoice [] "t3" 0 "FACT-1" "Facturado en Siigo").2.1
     "SIIGO-1" (by decide),
   (siigo_id_lifecycle c10DB c10Invoice [] "t4" 0 "FACT-1" "Anulado").2.2 none rfl⟩

/-! ## `services/invoice_service.py` — `generate_siigo_invoice` (claims C1, C3)

The platform client is abstracted as an environment of typed endpoint
oracles (each returning what the corresponding `SiigoAPIClient` helper
would: the decoded `results` list, or `none` collapsing both a failed
request and a response without usable results — the source treats those
identically).  `time.time()` and today's date are environment fields. -/

/-- A JSON value that is either a string or an integer (the source mixes a
string `impuesto_id` with the integer default `13156`). -/
inductive StrOrNat where
  | s (v : String)
  | n (v : Nat)
deriving Repr, DecidableEq

/-- A customer record as returned by the platform lookup. -/
structure SiigoCustomer where
  id : String
deriving Repr, DecidableEq

/-- The creation response, carrying the new record's id. -/
structure CreatedRec where
  id : String
deriving Repr, DecidableEq

/-- A product record as returned by the platform lookup. -/
structure SiigoProductRec where
  id : String
deriving Repr, DecidableEq

/-- The `new_customer` dictionary built for `create_customer`. -/
structure NewCustomer where
  type : String
  person_type : String
  id_type : String
  identification : String
  name : List String
  commercial_name : String
  active : Bool
  vat_responsible : Bool
  fiscal_responsibilities : List String
  address_address : String
  address_country_code : String
  address_state_code : String
  address_city_code : String
  contact_first_name : String
  contact_last_name : String
  contact_email : String
deriving Repr, DecidableEq

/-- One entry of the new product's price list. -/
structure PriceListEntry where
  position : Nat
  value : ℚ
deriving Repr, DecidableEq

/-- The `new_product` dictionary built for `create_product`. -/
structure NewProduct where
  code : String
  name : String
  account_group : Nat
  type : String
  stock_control : Bool
  active : Bool
  tax_classification : String
  taxes : List StrOrNat
  price_currency : String
  price_list : List PriceListEntry
deriving Repr, DecidableEq

/-- A platform user, whose id is read with `.get('id')`. -/
structure SiigoUser where
  id : Option Nat
deriving Repr, DecidableEq

/-- A document type as returned for `"FV"`. -/
structure DocType where
  id : Nat
  electronic_type : Option String
  automatic_number : Option Bool
  consecutive : Option Nat
deriving Repr, DecidableEq

/-- A payment type. -/
structure PayType where
  id : Nat
deriving Repr, DecidableEq

/-- The decoded shape of `get_payment_types`: either a JSON array or a JSON
object with an optional `results` key (the source checks both). -/
inductive PaymentTypesResult where
  | plist (l : List PayType)
  | pdict (results : Option (List PayType))
deriving Repr, DecidableEq

/-- The decoded `create_invoice` response (`id` read after an `'id' in
result` check). -/
structure CreateInvoiceResult where
  id : Option String
deriving Repr, DecidableEq

/-- The `client_data` mapping consumed by the pipeline (`identificacion`
and `nombre_cliente` are accessed unconditionally, the rest via `.get`). -/
structure ClientData where
  identificacion : String
  nombre_cliente : String
  tipo_persona : Option String := none
  tipo_identificacion : Option String := none
  direccion : Option String := none
  email : Option String := none
deriving Repr, DecidableEq

/-- The platform-client environment of `generate_siigo_invoice`. -/
structure SiigoEnv where
  get_customers : String → Option (List SiigoCustomer)
  create_customer : NewCustomer → Option CreatedRec
  get_products : String → Option (List SiigoProductRec)
  create_product : NewProduct → Option CreatedRec
  get_users : Option (List SiigoUser)
  get_document_types : String → Option (List DocType)
  get_payment_types : String → Option PaymentTypesResult
  create_invoice : SiigoInvoicePayload → Option CreateInvoiceResult
  epoch : Nat
  today : String

/-- The result of one pipeline run: the returned platform id, the possibly
mutated in-memory invoice, and the possibly updated local store. -/
structure GenResult where
  result : Option String
  invoice : Invoice
  db : DB
deriving Repr

/-- The `new_customer` dictionary, built from `client_data` and the
whitespace split `w :: ws` of the customer name. -/
def newCustomerFrom (cd : ClientData) (w : String) (ws : List String) : NewCustomer :=
  { type := "Customer"
    person_type := cd.tipo_persona.getD "Person"
    id_type := cd.tipo_identificacion.getD "13"
    identification := cd.identificacion
    name := [cd.nombre_cliente]
    commercial_name := cd.nombre_cliente
    active := true
    vat_responsible := false
    fiscal_responsibilities := ["R-99-PN"]
    address_address := cd.direccion.getD "N/A"
    address_country_code := "Co"
    address_state_code := "11"
    address_city_code := "11001"
    contact_first_name := w
    contact_last_name := " ".intercalate ws
    contact_email := cd.email.getD "cliente@ejemplo.com" }

/-- `product.producto_id or f"P{int(time.time())}"` (empty string is falsy). -/
def productCode (env : SiigoEnv) (p : Product) : String :=
  match p.producto_id with
  | some s => if s.isEmpty then "P" ++ toString env.epoch else s
  | none => "P" ++ toString env.epoch

/-- The `new_product` dictionary (`product.impuesto_id or 13156`). -/
def newProductFrom (code : String) (p : Product) : NewProduct :=
  { code := code
    name := p.nombre
    account_group := 1253
    type := "Product"
    stock_control := true
    active := true
    tax_classification := "Taxed"
    taxes := [match p.impuesto_id with
              | some s => if s.isEmpty then StrOrNat.n 13156 else StrOrNat.s s
              | none => StrOrNat.n 13156]
    price_currency := "COP"
    price_list := [{ position := 1, value := p.precio }] }

/-- The line item appended for one product: code, name, quantity, price,
zero discount — with no condition on the quantity. -/
def itemOf (code : String) (p : Product) : InvoiceItem :=
  { code := code, description := p.nombre, quantity := p.cantidad
    price := p.precio, discount := 0 }

/-- The per-product loop of step 2: look up by code, create when absent,
append an item for every product that is found or successfully created,
and `continue` past a failed creation. -/
def buildInvoiceItems (env : SiigoEnv) : List Product → List InvoiceItem
  | [] => []
  | p :: rest =>
    let code := productCode env p
    match env.get_products code with
    | some (_ :: _) => itemOf code p :: buildInvoiceItems env rest
    | _ =>
      match env.create_product (newProductFrom code p) with
      | some _ => itemOf code p :: buildInvoiceItems env rest
      | none => buildInvoiceItems env rest

/-- Step 3: the first user's id, or absent (a `results`-less reply is
collapsed with an absent one; the source turns both into an empty list). -/
def selectSeller (users : Option (List SiigoUser)) : Option Nat :=
  match users with
  | some (u :: _) => u.id
  | _ => none

/-- Step 4 after the non-empty check: prefer the first type whose
`electronic_type` is `"ElectronicInvoice"`, fall back to the first type
when none matches or when the match's id is falsy (0), and give up when
the resulting id is still falsy. -/
def selectDocType (l : List DocType) : Option (Nat × DocType) :=
  let fromLoop : Option (Nat × DocType) :=
    match l.find? (fun d => d.electronic_type == some "ElectronicInvoice") with
    | some d => some (d.id, d)
    | none => none
  let afterFallback : Option (Nat × DocType) :=
    match fromLoop with
    | some (i, d) =>
      if i = 0 then
        match l.head? with
        | some d0 => some (d0.id, d0)
        | none => none
      else some (i, d)
    | none =>
      match l.head? with
      | some d0 => some (d0.id, d0)
      | none => none
  match afterFallback with
  | some (i, d) => if i = 0 then none else some (i, d)
  | none => none

/-- Step 5: the first payment type's id from either response shape, with
the hardcoded test-environment default 5636 when none are returned. -/
def selectPaymentId (r : Option PaymentTypesResult) : Nat :=
  match r with
  | some (.plist (q :: _)) => q.id
  | some (.pdict (some (q :: _))) => q.id
  | _ => 5636

/-- Embedding of `InvoiceService.generate_siigo_invoice`
(src/services/invoice_service.py): customer lookup/creation, per-product
item assembly, seller/document/payment resolution, payload assembly
(stored on the invoice before submission), submission, and on a response
carrying an id the local status update and in-memory mutation.  Every
abort path returns an absent result leaving invoice and store unchanged
(except the payload recorded at step 6). -/
def generate_siigo_invoice (env : SiigoEnv) (siigo_available : Bool) (db : DB)
    (invoice : Invoice) (products : List Product) (client_data : ClientData)
    (send_to_dian : Bool) (now_iso : String) : GenResult :=
  if !siigo_available then ⟨none, invoice, db⟩
  else
    -- 1. customer lookup / creation (the found or created id is only logged)
    let customerOk : Bool :=
      match env.get_customers client_data.identificacion with
      | some (_ :: _) => true
      | _ =>
        match pySplitWs client_data.nombre_cliente with
        | [] => false  -- `split()[0]` raises, caught by the outer handler
        | w :: ws =>
          match env.create_customer (newCustomerFrom client_data w ws) with
          | some _ => true
          | none => false
    if !customerOk then ⟨none, invoice, db⟩
    else
      -- 2. per-product items
      let invoice_items := buildInvoiceItems env products
      -- 3. seller
      let seller_id := selectSeller env.get_users
      -- 4. document type
      match env.get_document_types "FV" with
      | none => ⟨none, invoice, db⟩
      | some [] => ⟨none, invoice, db⟩
      | some (d0 :: ds) =>
        match selectDocType (d0 :: ds) with
        | none => ⟨none, invoice, db⟩
        | some (document_id, selected) =>
          let requires_manual := selected.automatic_number == some false
          let invoice_number : Option Nat :=
            if requires_manual then some (selected.consecutive.getD 1) else none
          -- 5. payment type
          let payment_id := selectPaymentId (env.get_payment_types "FV")
          -- 6. payload assembly, recorded on the invoice before submission
          let payload : SiigoInvoicePayload :=
            { document_id := document_id
              document_number := invoice_number
              date := env.today
              customer_identification := client_data.identificacion
              customer_branch_office := 0
              seller := seller_id
              observations := "Factura generada automáticamente. Ref: "
                ++ invoice.factura_id
              items := invoice_items
              payments := [{ id := payment_id, value := invoice.valor_total
                             due_date := env.today }]
              stamp_send := send_to_dian
              mail_send := true }
          let invoice1 := { invoice with payload_json := some payload }
          -- 7. submission
          match env.create_invoice payload with
          | some r =>
            match r.id with
            | some siigo_id =>
              ⟨some siigo_id,
               { invoice1 with estado := "Facturado en Siigo", siigo_id := some siigo_id },
               (update_invoice_status db invoice.factura_id "Facturado en Siigo"
                 (some siigo_id) now_iso).2⟩
            | none => ⟨none, invoice1, db⟩
          | none => ⟨none, invoice1, db⟩

/-- Helper: whenever the customer is found and a document type is selected,
the pipeline reaches payload assembly and records on the invoice a payload
whose items are the step-2 list and whose single payment carries the
resolved payment id for the full total due today. -/
theorem generate_payload_spec (env : SiigoEnv) (db : DB) (invoice : Invoice)
    (products : List Product) (client_data : ClientData) (send_to_dian : Bool)
    (now_iso : String) (c : SiigoCustomer) (cs : List SiigoCustomer)
    (d0 : DocType) (ds : List DocType) (did : Nat) (selected : DocType)
    (hcust : env.get_customers client_data.identificacion = some (c :: cs))
    (hdoc : env.get_document_types "FV" = some (d0 :: ds))
    (hsel : selectDocType (d0 :: ds) = some (did, selected)) :
    ∃ pl, (generate_siigo_invoice env true db invoice products client_data
        send_to_dian now_iso).invoice.payload_json = some pl ∧
      pl.items = buildInvoiceItems env products ∧
      pl.payments = [{ id := selectPaymentId (env.get_payment_types "FV")
                       value := invoice.valor_total, due_date := env.today }] := by
  unfold generate_siigo_invoice
  simp only [hcust, hdoc, hsel, Bool.not_true, Bool.false_eq_true, if_false]
  split
  · split
    · exact ⟨_, rfl, rfl, rfl⟩
    · exact ⟨_, rfl, rfl, rfl⟩
  · exact ⟨_, rfl, rfl, rfl⟩

/-- A product is resolved by step 2 when the platform lookup by its code
returns at least one record, or its ad-hoc creation succeeds. -/
def productFoundOrCreated (env : SiigoEnv) (p : Product) : Prop :=
  (∃ r rs, env.get_products (productCode env p) = some (r :: rs)) ∨
  (∃ cr, env.create_product (newProductFrom (productCode env p) p) = some cr)

/-- Helper: when every product resolves, step 2 appends one item per
product, in order, carrying each product's quantity — there is no quantity
filter of any kind in this loop. -/
theorem buildInvoiceItems_no_filter (env : SiigoEnv) (products : List Product)
    (hres : ∀ p ∈ products, productFoundOrCreated env p) :
    buildInvoiceItems env products
      = products.map (fun p => itemOf (productCode env p) p) := by
  induction products with
  | nil => rfl
  | cons p rest ih =>
    have hp := hres p (List.mem_cons_self p rest)
    have hrest := fun q hq => hres q (List.mem_cons_of_mem p hq)
    rw [buildInvoiceItems, List.map_cons]
    cases hgp : env.get_products (productCode env p) with
    | none =>
      rcases hp with ⟨r, rs, heq⟩ | ⟨cr, heq⟩
      · rw [hgp] at heq
        cases heq
      · dsimp only
        rw [heq]
        dsimp only
        rw [ih hrest]
    | some l =>
      cases l with
      | nil =>
        rcases hp with ⟨r, rs, heq⟩ | ⟨cr, heq⟩
        · rw [hgp] at heq
          cases heq
        · dsimp only
          rw [heq]
          dsimp only
          rw [ih hrest]
      | cons r rs =>
        dsimp only
        rw [ih hrest]

/-- C1 as amended: `generate_siigo_invoice` applies no quantity filter —
whenever the pipeline reaches payload assembly and every product resolves
in the platform (found by code, or created), the assembled item list has
exactly one entry per input product carrying that product's detected
quantity, including quantities that are zero or negative.  (The zero-
quantity drop the claim describes exists only upstream, in the chat-bot
flow, before the list is passed to this method.) -/
theorem generate_siigo_items_unfiltered (env : SiigoEnv) (db : DB) (invoice : Invoice)
    (products : List Product) (client_data : ClientData) (send_to_dian : Bool)
    (now_iso : String) (c : SiigoCustomer) (cs : List SiigoCustomer)
    (d0 : DocType) (ds : List DocType) (did : Nat) (selected : DocType)
    (hcust : env.get_customers client_data.identificacion = some (c :: cs))
    (hdoc : env.get_document_types "FV" = some (d0 :: ds))
    (hsel : selectDocType (d0 :: ds) = some (did, selected))
    (hres : ∀ p ∈ products, productFoundOrCreated env p) :
    ∃ pl, (generate_siigo_invoice env true db invoice products client_data
        send_to_dian now_iso).invoice.payload_json = some pl ∧
      pl.items = products.map (fun p => itemOf (productCode env p) p) := by
  obtain ⟨pl, h1, h2, _⟩ := generate_payload_spec env db invoice products client_data
    send_to_dian now_iso c cs d0 ds did selected hcust hdoc hsel
  exact ⟨pl, h1, by rw [h2, buildInvoiceItems_no_filter env products hres]⟩

/-- The client data used by the C1 theorems. -/
def c1ClientData : ClientData := { identificacion := "900", nombre_cliente := "Juan" }

/-- A single zero-quantity product, as a vision model would emit. -/
def c1Products : List Product :=
  [{ nombre := "Cafe", cantidad := 0, precio := 10, producto_id := some "P1" }]

/-- The document type used by the C1 theorems. -/
def c1DocType : DocType :=
  { id := 1, electronic_type := some "ElectronicInvoice"
    automatic_number := none, consecutive := none }

/-- A platform environment where every lookup succeeds. -/
def c1Env : SiigoEnv :=
  { get_customers := fun _ => some [{ id := "c1" }]
    create_customer := fun _ => none
    get_products := fun _ => some [{ id := "p1" }]
    create_product := fun _ => none
    get_users := some [{ id := some 7 }]
    get_document_types := fun _ => some [c1DocType]
    get_payment_types := fun _ => some (.plist [{ id := 42 }])
    create_invoice := fun _ => some { id := some "S1" }
    epoch := 111
    today := "2025-01-01" }

/-- The local invoice used by the C1 theorems. -/
def c1Invoice : Invoice :=
  { factura_id := "FACT-X", fecha_emision := "2025-01-01", nombre_cliente := "Juan"
    identificacion := "900", productos_facturados := "", valor_total := 0 }

/-- C1 counterexample: the input product list consists of one product with
detected quantity 0, and the assembled platform item list contains exactly
the entry for that product (quantity 0 included) — it is not skipped. -/
theorem generate_siigo_zero_quantity_counterexample :
    (c1Products.map (fun p => p.cantidad)) = [0] ∧
    ((generate_siigo_invoice c1Env true ⟨[], []⟩ c1Invoice c1Products c1ClientData
        false "t").invoice.payload_json.map (fun pl => pl.items))
      = some [{ code := "P1", description := "Cafe", quantity := 0
                price := 10, discount := 0 }] :=
  ⟨rfl, rfl⟩

/-- A two-product list mixing a zero and a positive quantity. -/
def c1Products2 : List Product :=
  [{ nombre := "Cafe", cantidad := 0, precio := 10, producto_id := some "P1" },
   { nombre := "Pan", cantidad := 2, precio := 5, producto_id := some "P2" }]

/-- C1 witness: the amended theorem applied to the concrete environment and
a mixed product list — every product becomes an item, in order. -/
theorem generate_siigo_items_unfiltered_witness :
    ∃ pl, (generate_siigo_invoice c1Env true ⟨[], []⟩ c1Invoice c1Products2
        c1ClientData false "t").invoice.payload_json = some pl ∧
      pl.items = c1Products2.map (fun p => itemOf (productCode c1Env p) p) :=
  generate_siigo_items_unfiltered c1Env ⟨[], []⟩ c1Invoice c1Products2 c1ClientData
    false "t" { id := "c1" } [] c1DocType [] 1 c1DocType rfl rfl rfl
    (fun p _ => Or.inl ⟨{ id := "p1" }, [], rfl⟩)

/-- C3 as amended: payment-type resolution fetches payment types for `"FV"`
and uses the first one returned; when none are returned (a failed request
or an empty list) the pipeline substitutes the hardcoded default
payment-type id 5636 into the submitted payment entry — it never proceeds
with an absent payment id. -/
theorem generate_siigo_payment_resolution (env : SiigoEnv) (db : DB) (invoice : Invoice)
    (products : List Product) (client_data : ClientData) (send_to_dian : Bool)
    (now_iso : String) (c : SiigoCustomer) (cs : List SiigoCustomer)
    (d0 : DocType) (ds : List DocType) (did : Nat) (selected : DocType)
    (hcust : env.get_customers client_data.identificacion = some (c :: cs))
    (hdoc : env.get_document_types "FV" = some (d0 :: ds))
    (hsel : selectDocType (d0 :: ds) = some (did, selected)) :
    (∀ q qs, env.get_payment_types "FV" = some (.plist (q :: qs)) →
      ∃ pl, (generate_siigo_invoice env true db invoice products client_data
          send_to_dian now_iso).invoice.payload_json = some pl ∧
        pl.payments = [{ id := q.id, value := invoice.valor_total
                         due_date := env.today }]) ∧
    (env.get_payment_types "FV" = none ∨ env.get_payment_types "FV" = some (.plist []) →
      ∃ pl, (generate_siigo_invoice env true db invoice products client_data
          send_to_dian now_iso).invoice.payload_json = some pl ∧
        pl.payments = [{ id := 5636, value := invoice.valor_total
                         due_date := env.today }]) := by
  obtain ⟨pl, h1, _, h3⟩ := generate_payload_spec env db invoice products client_data
    send_to_dian now_iso c cs d0 ds did selected hcust hdoc hsel
  constructor
  · intro q qs hq
    refine ⟨pl, h1, ?_⟩
    rw [h3, hq]
    rfl
  · intro hnone
    refine ⟨pl, h1, ?_⟩
    rcases hnone with hn | hn
    · rw [h3, hn]
      rfl
    · rw [h3, hn]
      rfl

/-- The client data used by the C3 theorems. -/
def c3ClientData : ClientData := { identificacion := "901", nombre_cliente := "Ana" }

/-- The product list used by the C3 theorems. -/
def c3Products : List Product :=
  [{ nombre := "Pan", cantidad := 2, precio := 5, producto_id := some "Q1" }]

/-- The document type used by the C3 theorems. -/
def c3DocType : DocType :=
  { id := 3, electronic_type := some "ElectronicInvoice"
    automatic_number := none, consecutive := none }

/-- An environment whose payment-type fetch returns nothing at all. -/
def c3Env : SiigoEnv :=
  { get_customers := fun _ => some [{ id := "c3" }]
    create_customer := fun _ => none
    get_products := fun _ => some [{ id := "q1" }]
    create_product := fun _ => none
    get_users := some [{ id := some 8 }]
    get_document_types := fun _ => some [c3DocType]
    get_payment_types := fun _ => none
    create_invoice := fun _ => some { id := some "S3" }
    epoch := 222
    today := "2025-02-02" }

/-- An identical environment whose payment-type fetch returns one type. -/
def c3EnvFirst : SiigoEnv :=
  { c3Env with get_payment_types := fun _ => some (.plist [{ id := 9 }]) }

/-- The local invoice used by the C3 theorems. -/
def c3Invoice : Invoice :=
  { factura_id := "FACT-Y", fecha_emision := "2025-02-02", nombre_cliente := "Ana"
    identificacion := "901", productos_facturados := "", valor_total := 10 }

/-- C3 counterexample: the payment-type fetch returns nothing, and the
submitted payment entry carries the concrete default id 5636 — not an
absent payment id. -/
theorem generate_siigo_payment_counterexample :
    c3Env.get_payment_types "FV" = none ∧
    ((generate_siigo_invoice c3Env true ⟨[], []⟩ c3Invoice c3Products c3ClientData
        false "t").invoice.payload_json.map
          (fun pl => pl.payments.map (fun pay => pay.id)))
      = some [5636] :=
  ⟨rfl, rfl⟩

/-- C3 witness: the amended theorem applied at both concrete environments —
the first returned payment type's id (9) is used when one exists, and 5636
is substituted when none are returned. -/
theorem generate_siigo_payment_resolution_witness :
    (∃ pl, (generate_siigo_invoice c3EnvFirst true ⟨[], []⟩ c3Invoice c3Products
        c3ClientData false "t").invoice.payload_json = some pl ∧
      pl.payments = [{ id := 9, value := c3Invoice.valor_total
                       due_date := c3EnvFirst.today }]) ∧
    (∃ pl, (generate_siigo_invoice c3Env true ⟨[], []⟩ c3Invoice c3Products
        c3ClientData false "t").invoice.payload_json = some pl ∧
      pl.payments = [{ id := 5636, value := c3Invoice.valor_total
                       due_date := c3Env.today }]) :=
  ⟨(generate_siigo_payment_resolution c3EnvFirst ⟨[], []⟩ c3Invoice c3Products
      c3ClientData false "t" { id := "c3" } [] c3DocType [] 3 c3DocType
      rfl rfl rfl).1 { id := 9 } [] rfl,
   (generate_siigo_payment_resolution c3Env ⟨[], []⟩ c3Invoice c3Products
      c3ClientData false "t" { id := "c3" } [] c3DocType [] 3 c3DocType
      rfl rfl rfl).2 (Or.inl rfl)⟩
